import Mathlib

/-!
Shallow embedding of the APPR (Air Passenger Protection Rights) validation
engine from `appr_validator.py`, together with the data model from
`models.py` and the jurisdiction registry from `canadian_airports.py`.

Monetary amounts, delay durations and ticket prices (Python floats) are
modelled as rationals; optional numeric fields as `Option`.  Python
truthiness on optional numerics (`if not x:` treats both `None` and `0`
as falsy) is modelled explicitly by `pyTruthyQ` / `pyTruthyInt`.
-/

namespace APPR

/-- Disruption kinds, from `models.DisruptionType`. -/
inductive DisruptionType where
  | delay
  | cancellation
  | denied_boarding
  | tarmac_delay
  | downgrade
  | baggage_issue
deriving DecidableEq, Repr

/-- Disruption categories, from `models.DisruptionCategory`. -/
inductive DisruptionCategory where
  | within_carrier_control
  | within_carrier_control_safety
  | outside_carrier_control
deriving DecidableEq, Repr

/-- Passenger categories, from `models.PassengerType`. -/
inductive PassengerType where
  | regular
  | minor
  | disability
deriving DecidableEq, Repr

/-- Flight facts, from `models.FlightInfo` (timestamps modelled as opaque
integers; the engine never reads them). -/
structure FlightInfo where
  flight_number : String
  departure_airport : String
  arrival_airport : String
  scheduled_departure : Int
  actual_departure : Option Int := none
  scheduled_arrival : Int
  actual_arrival : Option Int := none
deriving DecidableEq, Repr

/-- Passenger facts, from `models.PassengerInfo`. -/
structure PassengerInfo where
  passenger_type : PassengerType := PassengerType.regular
  minor_age : Option Int := none
  has_disability : Bool := false
  ticket_price : ℚ
  booking_class : String
deriving DecidableEq, Repr

/-- Disruption facts, from `models.DisruptionEvent`. -/
structure DisruptionEvent where
  disruption_type : DisruptionType
  disruption_category : DisruptionCategory
  delay_duration_hours : Option ℚ := none
  cancellation_notice_days : Option Int := none
  tarmac_delay_hours : Option ℚ := none
  reason : Option String := none
  weather_related : Bool := false
deriving DecidableEq, Repr

/-- The engine's output record, from `models.CompensationResult`. -/
structure CompensationResult where
  eligible_for_compensation : Bool
  compensation_amount : ℚ := 0
  care_obligations : List String := []
  rebooking_rights : List String := []
  refund_rights : List String := []
  compliance_notes : List String := []
  alternative_arrangements : List String := []
deriving DecidableEq, Repr

/-- The request aggregate, from `models.APPRValidationRequest`. -/
structure APPRValidationRequest where
  flight_info : FlightInfo
  passenger_info : PassengerInfo
  disruption_event : DisruptionEvent
deriving DecidableEq, Repr

/-- Python truthiness of an `Optional[float]`: `None` and `0.0` are falsy. -/
def pyTruthyQ : Option ℚ → Bool
  | none => false
  | some x => x != 0

/-- Python truthiness of an `Optional[int]`: `None` and `0` are falsy. -/
def pyTruthyInt : Option Int → Bool
  | none => false
  | some x => x != 0

/-- Python `a or b or 0` over two `Optional[float]` values: the first truthy
operand, else `0`. -/
def pyOrQ (a b : Option ℚ) : ℚ :=
  if pyTruthyQ a then a.getD 0 else if pyTruthyQ b then b.getD 0 else 0

/-- Airport codes of `canadian_airports.CANADIAN_AIRPORTS` (the dict keys,
in source order; the duplicate YFB key collapses as in a Python dict). -/
def CANADIAN_AIRPORTS : List String :=
  ["YYZ", "YVR", "YUL", "YYC", "YWG", "YOW", "YHZ", "YEG", "YQB", "YXE",
   "YYJ", "YKF", "YHM", "YFB", "YXY", "YZF", "YQR", "YQT", "YSJ", "YFC",
   "YQM", "YQX", "YYT", "YXU", "YKA", "YPG", "YQU", "YMM", "YLW", "YXS",
   "YBR", "YTS", "YSB", "YAM", "YQK", "YZP", "YCD", "YCA", "YPW", "YXJ",
   "YDQ", "YFO", "YTH", "YCG", "YXC",
   "YUX", "YRT", "YBK", "YGZ", "YEV", "YAT", "YMO", "YPH", "YWP", "YHO",
   "YHR", "YER", "YZS"]

/-- Python `str.upper()` (ASCII case mapping suffices for airport codes),
written over the underlying character list. -/
def pyUpper (s : String) : String := String.mk (s.data.map Char.toUpper)

/-- Python `str.lower()` (ASCII case mapping suffices for booking classes),
written over the underlying character list. -/
def pyLower (s : String) : String := String.mk (s.data.map Char.toLower)

/-- Membership check of `canadian_airports.is_canadian_airport`. -/
def is_canadian_airport (airport_code : String) : Bool :=
  (pyUpper airport_code) ∈ CANADIAN_AIRPORTS

/-- The `APPRValidator.LARGE_CARRIER_COMPENSATION` rate table (dict lookup
by key; the engine only ever looks up the six keys present). -/
def LARGE_CARRIER_COMPENSATION : String → ℚ
  | "3_to_6_hours" => 400
  | "6_to_9_hours" => 700
  | "9_plus_hours" => 1000
  | "denied_boarding_domestic" => 900
  | "denied_boarding_international" => 1800
  | "denied_boarding_international_long" => 2400
  | _ => 0

/-- Handler for flight delays, `APPRValidator._handle_delay`.  Note the
guard `if not disruption.delay_duration_hours:` in the source: a missing
duration AND a present duration of exactly 0 both take the
"not specified" early return (Python falsiness). -/
def handle_delay (request : APPRValidationRequest) : CompensationResult :=
  let disruption := request.disruption_event
  if ¬ pyTruthyQ disruption.delay_duration_hours then
    { eligible_for_compensation := false
      compliance_notes := ["Delay duration not specified"] }
  else
    let delay_hours := disruption.delay_duration_hours.getD 0
    if delay_hours < 3 then
      { eligible_for_compensation := false
        compliance_notes := ["Delay of " ++ toString delay_hours ++
          " hours is under 3-hour threshold - no compensation required"] }
    else if disruption.disruption_category = DisruptionCategory.outside_carrier_control then
      { eligible_for_compensation := false
        compliance_notes := ["Delay outside carrier control - no monetary compensation required"] }
    else if disruption.disruption_category = DisruptionCategory.within_carrier_control_safety then
      { eligible_for_compensation := false
        compliance_notes := ["Delay within carrier control but required for safety - no monetary compensation required"] }
    else if disruption.disruption_category = DisruptionCategory.within_carrier_control then
      { eligible_for_compensation := true
        compensation_amount :=
          if 3 ≤ delay_hours ∧ delay_hours < 6 then
            LARGE_CARRIER_COMPENSATION "3_to_6_hours"
          else if 6 ≤ delay_hours ∧ delay_hours < 9 then
            LARGE_CARRIER_COMPENSATION "6_to_9_hours"
          else
            LARGE_CARRIER_COMPENSATION "9_plus_hours"
        compliance_notes := ["Delay of " ++ toString delay_hours ++
          " hours within carrier control - compensation required"] }
    else
      { eligible_for_compensation := false }

/-- Handler for cancellations, `APPRValidator._handle_cancellation`.  The
14-day safe-harbor guard uses Python truthiness (`if ... and ... >= 14`);
the substitute-flight delay is `delay_duration_hours or 0`. -/
def handle_cancellation (request : APPRValidationRequest) : CompensationResult :=
  let disruption := request.disruption_event
  if pyTruthyInt disruption.cancellation_notice_days ∧
      14 ≤ disruption.cancellation_notice_days.getD 0 then
    { eligible_for_compensation := false
      compliance_notes := ["Cancellation with 14+ days notice - no compensation required"] }
  else if disruption.disruption_category = DisruptionCategory.outside_carrier_control then
    { eligible_for_compensation := false
      compliance_notes := ["Cancellation outside carrier control - no monetary compensation required"] }
  else if disruption.disruption_category = DisruptionCategory.within_carrier_control_safety then
    { eligible_for_compensation := false
      compliance_notes := ["Cancellation within carrier control but required for safety - no monetary compensation required"] }
  else if disruption.disruption_category = DisruptionCategory.within_carrier_control then
    let delay_hours := if pyTruthyQ disruption.delay_duration_hours then
      disruption.delay_duration_hours.getD 0 else 0
    if delay_hours < 3 then
      { eligible_for_compensation := true
        compensation_amount := 0
        compliance_notes := ["Alternative flight within 3 hours - no compensation required",
          "Cancellation within carrier control - compensation based on " ++
            toString delay_hours ++ " hour delay to alternative flight"] }
    else
      { eligible_for_compensation := true
        compensation_amount :=
          if 3 ≤ delay_hours ∧ delay_hours < 6 then
            LARGE_CARRIER_COMPENSATION "3_to_6_hours"
          else if 6 ≤ delay_hours ∧ delay_hours < 9 then
            LARGE_CARRIER_COMPENSATION "6_to_9_hours"
          else
            LARGE_CARRIER_COMPENSATION "9_plus_hours"
        compliance_notes := ["Cancellation within carrier control - compensation based on " ++
          toString delay_hours ++ " hour delay to alternative flight"] }
  else
    { eligible_for_compensation := false }

/-- Handler for denied boarding, `APPRValidator._handle_denied_boarding`. -/
def handle_denied_boarding (request : APPRValidationRequest) : CompensationResult :=
  let flight := request.flight_info
  let is_international := ¬ (is_canadian_airport flight.departure_airport ∧
    is_canadian_airport flight.arrival_airport)
  if ¬ is_international then
    { eligible_for_compensation := true
      compensation_amount := LARGE_CARRIER_COMPENSATION "denied_boarding_domestic"
      compliance_notes := ["Denied boarding on domestic flight"] }
  else
    { eligible_for_compensation := true
      compensation_amount := LARGE_CARRIER_COMPENSATION "denied_boarding_international_long"
      compliance_notes := ["Denied boarding on international flight"] }

/-- Handler for tarmac delays, `APPRValidator._handle_tarmac_delay`.  Note
the early return when `tarmac_delay_hours` is missing or zero (Python
falsiness), and that the delay-handler merge runs only when
`delay_duration_hours` is truthy. -/
def handle_tarmac_delay (request : APPRValidationRequest) : CompensationResult :=
  let disruption := request.disruption_event
  if ¬ pyTruthyQ disruption.tarmac_delay_hours then
    { eligible_for_compensation := false
      compliance_notes := ["Tarmac delay duration not specified"] }
  else
    let tarmac_hours := disruption.tarmac_delay_hours.getD 0
    let result : CompensationResult :=
      if 4 ≤ tarmac_hours then
        { eligible_for_compensation := false
          compliance_notes := ["Tarmac delay of 4+ hours requires mandatory disembarkation"]
          alternative_arrangements := ["Passenger disembarkation required after 4 hours on tarmac"] }
      else
        { eligible_for_compensation := false }
    if pyTruthyQ disruption.delay_duration_hours then
      let delay_result := handle_delay request
      { result with
        eligible_for_compensation := delay_result.eligible_for_compensation
        compensation_amount := delay_result.compensation_amount
        compliance_notes := result.compliance_notes ++ delay_result.compliance_notes }
    else
      result

/-- Handler for downgrades, `APPRValidator._handle_downgrade`. -/
def handle_downgrade (request : APPRValidationRequest) : CompensationResult :=
  let passenger := request.passenger_info
  { eligible_for_compensation := true
    compensation_amount :=
      if pyLower passenger.booking_class ∈ ["business", "first"] then
        passenger.ticket_price * (75 / 100)
      else
        passenger.ticket_price * (50 / 100)
    compliance_notes := ["Service downgrade from " ++ passenger.booking_class ++ " class"] }

/-- Handler for baggage issues, `APPRValidator._handle_baggage_issue`. -/
def handle_baggage_issue (_request : APPRValidationRequest) : CompensationResult :=
  { eligible_for_compensation := false
    compliance_notes := ["Baggage issue - carrier must reimburse reasonable interim expenses"]
    alternative_arrangements := ["Reimbursement for essential items while baggage is delayed"] }

/-- The disruption-type dispatch chain of
`APPRValidator._calculate_compensation_and_rights` (the `if/elif` ladder
over `DisruptionType`; every kind is matched, so the initial non-eligible
default is always overwritten). -/
def dispatchResult (request : APPRValidationRequest) : CompensationResult :=
  match request.disruption_event.disruption_type with
  | DisruptionType.delay => handle_delay request
  | DisruptionType.cancellation => handle_cancellation request
  | DisruptionType.denied_boarding => handle_denied_boarding request
  | DisruptionType.tarmac_delay => handle_tarmac_delay request
  | DisruptionType.downgrade => handle_downgrade request
  | DisruptionType.baggage_issue => handle_baggage_issue request

/-- Cross-cutting pass `APPRValidator._add_care_obligations`.  The key is
the Python expression `delay_duration_hours or tarmac_delay_hours or 0`
(first truthy operand, NOT the maximum). -/
def add_care_obligations (request : APPRValidationRequest)
    (result : CompensationResult) : CompensationResult :=
  let disruption := request.disruption_event
  let delay_hours := pyOrQ disruption.delay_duration_hours disruption.tarmac_delay_hours
  let result := if 2 ≤ delay_hours then
    { result with care_obligations := result.care_obligations ++
        ["Communication: Provide updates on delay status and passenger rights"] }
    else result
  let result := if 3 ≤ delay_hours then
    { result with care_obligations := result.care_obligations ++
        ["Food and drink: Provide meals and refreshments"] }
    else result
  if 8 ≤ delay_hours then
    { result with care_obligations := result.care_obligations ++
        ["Accommodation: Provide overnight accommodation if required",
         "Transportation: Provide transport between airport and accommodation"] }
  else result

/-- Cross-cutting pass `APPRValidator._add_rebooking_refund_rights`. -/
def add_rebooking_refund_rights (request : APPRValidationRequest)
    (result : CompensationResult) : CompensationResult :=
  let disruption := request.disruption_event
  let result := if disruption.disruption_type = DisruptionType.delay ∨
      disruption.disruption_type = DisruptionType.cancellation then
    { result with
      rebooking_rights := result.rebooking_rights ++
        ["Right to rebooking on next available flight at no additional cost"]
      refund_rights := result.refund_rights ++
        ["Right to refund if passenger chooses not to travel"] }
    else result
  if disruption.disruption_type = DisruptionType.denied_boarding then
    { result with
      rebooking_rights := result.rebooking_rights ++
        ["Right to alternative flight or rebooking"]
      refund_rights := result.refund_rights ++
        ["Right to full refund if alternative not acceptable"] }
  else result

/-- Cross-cutting pass `APPRValidator._add_special_passenger_rights`. -/
def add_special_passenger_rights (request : APPRValidationRequest)
    (result : CompensationResult) : CompensationResult :=
  let passenger := request.passenger_info
  let result := if passenger.passenger_type = PassengerType.minor then
    { result with
      compliance_notes := result.compliance_notes ++
        ["Minor passenger - enhanced care obligations apply"]
      care_obligations := result.care_obligations ++
        ["Special assistance for unaccompanied minors"] }
    else result
  if passenger.has_disability ∨ passenger.passenger_type = PassengerType.disability then
    { result with
      compliance_notes := result.compliance_notes ++
        ["Passenger with disability - enhanced protections apply"]
      care_obligations := result.care_obligations ++
        ["Assistance appropriate to passenger's disability"]
      alternative_arrangements := result.alternative_arrangements ++
        ["Priority rebooking for passengers with disabilities"] }
  else result

/-- Pipeline of `APPRValidator._calculate_compensation_and_rights`:
dispatch to the disruption-type handler, then the three cross-cutting
passes in source order. -/
def calculate_compensation_and_rights (request : APPRValidationRequest) :
    CompensationResult :=
  let result := dispatchResult request
  let result := add_care_obligations request result
  let result := add_rebooking_refund_rights request result
  add_special_passenger_rights request result

/-- Top-level entry point `APPRValidator.validate_appr_request`: the
jurisdiction gate, then the rule pipeline.  Returns
(is_appr_applicable, reason, compensation_result). -/
def validate_appr_request (request : APPRValidationRequest) :
    Bool × String × CompensationResult :=
  if ¬ is_canadian_airport request.flight_info.departure_airport then
    (false,
     "APPR does not apply - flight departs from " ++
       request.flight_info.departure_airport ++ " (non-Canadian airport)",
     { eligible_for_compensation := false })
  else
    (true,
     "APPR applies - flight departs from Canadian airport " ++
       request.flight_info.departure_airport,
     calculate_compensation_and_rights request)

/-- Update only the delay duration of a request (used to compare the
engine's output across durations). -/
def set_delay_duration (request : APPRValidationRequest) (d : Option ℚ) :
    APPRValidationRequest :=
  { request with disruption_event :=
      { request.disruption_event with delay_duration_hours := d } }

/-- A concrete flight between two given airports (timestamps irrelevant
to the engine). -/
def mkFlight (dep arr : String) : FlightInfo :=
  { flight_number := "WS100", departure_airport := dep, arrival_airport := arr,
    scheduled_departure := 0, scheduled_arrival := 0 }

/-- A concrete regular economy passenger. -/
def regularPassenger : PassengerInfo :=
  { ticket_price := 350, booking_class := "Economy" }

/-- Concrete request: 4-hour delay within carrier control, YYZ departure. -/
def reqDelayYYZ : APPRValidationRequest :=
  { flight_info := mkFlight "YYZ" "YVR", passenger_info := regularPassenger,
    disruption_event :=
      { disruption_type := DisruptionType.delay,
        disruption_category := DisruptionCategory.within_carrier_control,
        delay_duration_hours := some 4 } }

/-- Concrete request: delay departing from LAX (outside the jurisdiction). -/
def reqDelayLAX : APPRValidationRequest :=
  { flight_info := mkFlight "LAX" "YYZ", passenger_info := regularPassenger,
    disruption_event :=
      { disruption_type := DisruptionType.delay,
        disruption_category := DisruptionCategory.within_carrier_control,
        delay_duration_hours := some 4 } }

/-- Concrete request: tarmac-delay disruption with a 2-hour general delay
and a 9-hour tarmac delay (so the maximum of the two is 9). -/
def reqCareMix : APPRValidationRequest :=
  { flight_info := mkFlight "YYZ" "YVR", passenger_info := regularPassenger,
    disruption_event :=
      { disruption_type := DisruptionType.tarmac_delay,
        disruption_category := DisruptionCategory.within_carrier_control,
        delay_duration_hours := some 2,
        tarmac_delay_hours := some 9 } }

/-- Concrete request: cancellation with 2 days notice, within carrier
control, 6-hour delay to the substitute flight. -/
def reqCancel : APPRValidationRequest :=
  { flight_info := mkFlight "YHZ" "YYZ", passenger_info := regularPassenger,
    disruption_event :=
      { disruption_type := DisruptionType.cancellation,
        disruption_category := DisruptionCategory.within_carrier_control,
        delay_duration_hours := some 6,
        cancellation_notice_days := some 2 } }

/-- Concrete request: cancellation within carrier control whose substitute
flight leaves only 1 hour late (eligible, zero compensation). -/
def reqCancelZero : APPRValidationRequest :=
  { flight_info := mkFlight "YHZ" "YYZ", passenger_info := regularPassenger,
    disruption_event :=
      { disruption_type := DisruptionType.cancellation,
        disruption_category := DisruptionCategory.within_carrier_control,
        delay_duration_hours := some 1,
        cancellation_notice_days := some 2 } }

/-- Concrete request: tarmac-delay disruption with NO tarmac duration but
a 5-hour general delay within carrier control. -/
def reqTarmacNone : APPRValidationRequest :=
  { flight_info := mkFlight "YXE" "YYC", passenger_info := regularPassenger,
    disruption_event :=
      { disruption_type := DisruptionType.tarmac_delay,
        disruption_category := DisruptionCategory.within_carrier_control,
        delay_duration_hours := some 5,
        tarmac_delay_hours := none } }

/-- Concrete request: 5-hour tarmac delay with a 7-hour general delay,
within carrier control. -/
def reqTarmac : APPRValidationRequest :=
  { flight_info := mkFlight "YXE" "YYC", passenger_info := regularPassenger,
    disruption_event :=
      { disruption_type := DisruptionType.tarmac_delay,
        disruption_category := DisruptionCategory.within_carrier_control,
        delay_duration_hours := some 7,
        tarmac_delay_hours := some 5 } }

/-- Concrete request: denied boarding on a domestic flight YWG to YQR. -/
def reqDenied : APPRValidationRequest :=
  { flight_info := mkFlight "YWG" "YQR", passenger_info := regularPassenger,
    disruption_event :=
      { disruption_type := DisruptionType.denied_boarding,
        disruption_category := DisruptionCategory.within_carrier_control } }

/-- Concrete request: downgrade of a 1000-dollar Business-class ticket. -/
def reqDowngrade : APPRValidationRequest :=
  { flight_info := mkFlight "YYZ" "YVR",
    passenger_info := { ticket_price := 1000, booking_class := "Business" },
    disruption_event :=
      { disruption_type := DisruptionType.downgrade,
        disruption_category := DisruptionCategory.within_carrier_control } }

/-- Concrete request: delay disruption with a PRESENT duration of exactly
0 hours (distinct, as input state, from an absent duration). -/
def reqDelayZero : APPRValidationRequest :=
  { flight_info := mkFlight "YYZ" "YVR", passenger_info := regularPassenger,
    disruption_event :=
      { disruption_type := DisruptionType.delay,
        disruption_category := DisruptionCategory.within_carrier_control,
        delay_duration_hours := some 0 } }

/-- Concrete request: delay disruption with a present 1-hour duration. -/
def reqDelayShort : APPRValidationRequest :=
  { flight_info := mkFlight "YYZ" "YVR", passenger_info := regularPassenger,
    disruption_event :=
      { disruption_type := DisruptionType.delay,
        disruption_category := DisruptionCategory.within_carrier_control,
        delay_duration_hours := some 1 } }

/-! Helper lemmas about the pipeline. -/

/-- When the jurisdiction gate passes, the top level returns the pipeline
result with `applicable = true`. -/
lemma validate_gate_pos (request : APPRValidationRequest)
    (h : is_canadian_airport request.flight_info.departure_airport = true) :
    validate_appr_request request =
      (true,
       "APPR applies - flight departs from Canadian airport " ++
         request.flight_info.departure_airport,
       calculate_compensation_and_rights request) := by
  unfold validate_appr_request
  simp [h]

/-- The care pass only appends to `care_obligations`. -/
lemma add_care_frame (request : APPRValidationRequest) (r : CompensationResult) :
    (add_care_obligations request r).eligible_for_compensation = r.eligible_for_compensation ∧
    (add_care_obligations request r).compensation_amount = r.compensation_amount ∧
    (add_care_obligations request r).rebooking_rights = r.rebooking_rights ∧
    (add_care_obligations request r).refund_rights = r.refund_rights ∧
    (add_care_obligations request r).compliance_notes = r.compliance_notes ∧
    (add_care_obligations request r).alternative_arrangements = r.alternative_arrangements ∧
    r.care_obligations <+: (add_care_obligations request r).care_obligations := by
  unfold add_care_obligations
  dsimp only
  split_ifs <;> simp [List.append_assoc, List.prefix_append]

/-- The rebooking/refund pass only appends to `rebooking_rights` and
`refund_rights`. -/
lemma add_rebooking_frame (request : APPRValidationRequest) (r : CompensationResult) :
    (add_rebooking_refund_rights request r).eligible_for_compensation = r.eligible_for_compensation ∧
    (add_rebooking_refund_rights request r).compensation_amount = r.compensation_amount ∧
    (add_rebooking_refund_rights request r).care_obligations = r.care_obligations ∧
    (add_rebooking_refund_rights request r).compliance_notes = r.compliance_notes ∧
    (add_rebooking_refund_rights request r).alternative_arrangements = r.alternative_arrangements ∧
    r.rebooking_rights <+: (add_rebooking_refund_rights request r).rebooking_rights ∧
    r.refund_rights <+: (add_rebooking_refund_rights request r).refund_rights := by
  unfold add_rebooking_refund_rights
  dsimp only
  split_ifs <;> simp [List.append_assoc, List.prefix_append]

/-- The special-passenger pass only appends to `compliance_notes`,
`care_obligations` and `alternative_arrangements`. -/
lemma add_special_frame (request : APPRValidationRequest) (r : CompensationResult) :
    (add_special_passenger_rights request r).eligible_for_compensation = r.eligible_for_compensation ∧
    (add_special_passenger_rights request r).compensation_amount = r.compensation_amount ∧
    (add_special_passenger_rights request r).rebooking_rights = r.rebooking_rights ∧
    (add_special_passenger_rights request r).refund_rights = r.refund_rights ∧
    r.compliance_notes <+: (add_special_passenger_rights request r).compliance_notes ∧
    r.care_obligations <+: (add_special_passenger_rights request r).care_obligations ∧
    r.alternative_arrangements <+: (add_special_passenger_rights request r).alternative_arrangements := by
  unfold add_special_passenger_rights
  dsimp only
  split_ifs <;> simp [List.append_assoc, List.prefix_append]

/-- The three cross-cutting passes leave the eligibility flag and the
amount exactly as the dispatched handler set them, and only append to the
five list fields. -/
lemma calc_frame (request : APPRValidationRequest) :
    (calculate_compensation_and_rights request).eligible_for_compensation =
      (dispatchResult request).eligible_for_compensation ∧
    (calculate_compensation_and_rights request).compensation_amount =
      (dispatchResult request).compensation_amount ∧
    (dispatchResult request).care_obligations <+:
      (calculate_compensation_and_rights request).care_obligations ∧
    (dispatchResult request).rebooking_rights <+:
      (calculate_compensation_and_rights request).rebooking_rights ∧
    (dispatchResult request).refund_rights <+:
      (calculate_compensation_and_rights request).refund_rights ∧
    (dispatchResult request).compliance_notes <+:
      (calculate_compensation_and_rights request).compliance_notes ∧
    (dispatchResult request).alternative_arrangements <+:
      (calculate_compensation_and_rights request).alternative_arrangements := by
  unfold calculate_compensation_and_rights
  obtain ⟨c1, c2, c3, c4, c5, c6, c7⟩ := add_care_frame request (dispatchResult request)
  obtain ⟨b1, b2, b3, b4, b5, b6, b7⟩ :=
    add_rebooking_frame request (add_care_obligations request (dispatchResult request))
  obtain ⟨s1, s2, s3, s4, s5, s6, s7⟩ := add_special_frame request
    (add_rebooking_refund_rights request (add_care_obligations request (dispatchResult request)))
  refine ⟨by rw [s1, b1, c1], by rw [s2, b2, c2], ?_, ?_, ?_, ?_, ?_⟩
  · have h := s6; rw [b3] at h; exact c7.trans h
  · have h := b6; rw [c3] at h; rw [s3]; exact h
  · have h := b7; rw [c4] at h; rw [s4]; exact h
  · have h := s5; rw [b4, c5] at h; exact h
  · have h := s7; rw [b5, c6] at h; exact h

/-- Eligibility after the full pipeline equals the handler's. -/
lemma calc_eligible (request : APPRValidationRequest) :
    (calculate_compensation_and_rights request).eligible_for_compensation =
      (dispatchResult request).eligible_for_compensation :=
  (calc_frame request).1

/-- Amount after the full pipeline equals the handler's. -/
lemma calc_amount (request : APPRValidationRequest) :
    (calculate_compensation_and_rights request).compensation_amount =
      (dispatchResult request).compensation_amount :=
  (calc_frame request).2.1

/-- Membership in the final compliance notes reduces to membership in the
handler's notes, for any string other than the two special-passenger
notes (the only notes the cross-cutting passes can add). -/
lemma mem_notes_calc (request : APPRValidationRequest) (s : String)
    (h1 : s ≠ "Minor passenger - enhanced care obligations apply")
    (h2 : s ≠ "Passenger with disability - enhanced protections apply") :
    (s ∈ (calculate_compensation_and_rights request).compliance_notes ↔
      s ∈ (dispatchResult request).compliance_notes) := by
  unfold calculate_compensation_and_rights add_special_passenger_rights
  dsimp only
  obtain ⟨c1, c2, c3, c4, c5, c6, c7⟩ := add_care_frame request (dispatchResult request)
  obtain ⟨b1, b2, b3, b4, b5, b6, b7⟩ :=
    add_rebooking_frame request (add_care_obligations request (dispatchResult request))
  split_ifs <;> simp [List.mem_append, h1, h2, b4, c5]

/-- Membership in the final care obligations reduces to membership after
the care pass, for any string other than the two special-passenger care
entries. -/
lemma mem_care_calc (request : APPRValidationRequest) (s : String)
    (h1 : s ≠ "Special assistance for unaccompanied minors")
    (h2 : s ≠ "Assistance appropriate to passenger's disability") :
    (s ∈ (calculate_compensation_and_rights request).care_obligations ↔
      s ∈ (add_care_obligations request (dispatchResult request)).care_obligations) := by
  unfold calculate_compensation_and_rights add_special_passenger_rights
  dsimp only
  obtain ⟨b1, b2, b3, b4, b5, b6, b7⟩ :=
    add_rebooking_frame request (add_care_obligations request (dispatchResult request))
  split_ifs <;> simp [List.mem_append, h1, h2, b3]

/-- Membership in the final alternative arrangements reduces to membership
in the handler's, for any string other than the priority-rebooking entry. -/
lemma mem_alt_calc (request : APPRValidationRequest) (s : String)
    (h1 : s ≠ "Priority rebooking for passengers with disabilities") :
    (s ∈ (calculate_compensation_and_rights request).alternative_arrangements ↔
      s ∈ (dispatchResult request).alternative_arrangements) := by
  unfold calculate_compensation_and_rights add_special_passenger_rights
  dsimp only
  obtain ⟨c1, c2, c3, c4, c5, c6, c7⟩ := add_care_frame request (dispatchResult request)
  obtain ⟨b1, b2, b3, b4, b5, b6, b7⟩ :=
    add_rebooking_frame request (add_care_obligations request (dispatchResult request))
  split_ifs <;> simp [List.mem_append, h1, b5, c6]

/-- No disruption-type handler ever touches the care-obligations list. -/
lemma dispatch_care_nil (request : APPRValidationRequest) :
    (dispatchResult request).care_obligations = [] := by
  unfold dispatchResult
  cases request.disruption_event.disruption_type <;> dsimp only
  case delay => unfold handle_delay; dsimp only; split_ifs <;> rfl
  case cancellation => unfold handle_cancellation; dsimp only; split_ifs <;> rfl
  case denied_boarding => unfold handle_denied_boarding; dsimp only; split_ifs <;> rfl
  case tarmac_delay => unfold handle_tarmac_delay handle_delay; dsimp only; split_ifs <;> rfl
  case downgrade => unfold handle_downgrade; rfl
  case baggage_issue => rfl

/-- Length argument: a string bracketed by a pair of strings whose
combined length already exceeds that of `c` is never equal to `c`. -/
lemma append_ne_of_length (a b c : String) (h : c.length < a.length + b.length)
    (s : String) : a ++ s ++ b ≠ c := by
  intro hEq
  have h2 := congrArg String.length hEq
  simp only [String.length_append] at h2
  omega

/-- Tier characterization of the delay handler for a within-carrier-control
disruption with a specified duration. -/
lemma handle_delay_wcc (request : APPRValidationRequest)
    (hcat : request.disruption_event.disruption_category =
      DisruptionCategory.within_carrier_control)
    (d : ℚ) (hd : request.disruption_event.delay_duration_hours = some d) :
    (d < 3 → (handle_delay request).eligible_for_compensation = false ∧
      (handle_delay request).compensation_amount = 0) ∧
    (3 ≤ d → d < 6 → (handle_delay request).eligible_for_compensation = true ∧
      (handle_delay request).compensation_amount = 400) ∧
    (6 ≤ d → d < 9 → (handle_delay request).eligible_for_compensation = true ∧
      (handle_delay request).compensation_amount = 700) ∧
    (9 ≤ d → (handle_delay request).eligible_for_compensation = true ∧
      (handle_delay request).compensation_amount = 1000) := by
  unfold handle_delay
  dsimp only
  rw [hd, hcat]
  refine ⟨?_, ?_, ?_, ?_⟩
  · intro h3
    by_cases h0 : d = 0
    · subst h0; norm_num [pyTruthyQ]
    · simp [pyTruthyQ, h0, h3]
  · intro h3 h6
    have h0 : d ≠ 0 := by intro h; rw [h] at h3; norm_num at h3
    have hn3 : ¬ d < 3 := not_lt.mpr h3
    simp [pyTruthyQ, h0, hn3, h3, h6, LARGE_CARRIER_COMPENSATION]
  · intro h6 h9
    have h0 : d ≠ 0 := by intro h; rw [h] at h6; norm_num at h6
    have hn3 : ¬ d < 3 := by intro h; linarith
    have hn6 : ¬ d < 6 := not_lt.mpr h6
    simp [pyTruthyQ, h0, hn3, hn6, h6, h9, LARGE_CARRIER_COMPENSATION]
  · intro h9
    have h0 : d ≠ 0 := by intro h; rw [h] at h9; norm_num at h9
    have hn3 : ¬ d < 3 := by intro h; linarith
    have hn6 : ¬ d < 6 := by intro h; linarith
    have hn9 : ¬ d < 9 := not_lt.mpr h9
    simp [pyTruthyQ, h0, hn3, hn6, hn9, LARGE_CARRIER_COMPENSATION]

/-- The full-pipeline compensation amount of a within-carrier-control
delay request, as a closed tier function of the duration it is run with. -/
lemma delay_amount_closed_form (request : APPRValidationRequest)
    (hgate : is_canadian_airport request.flight_info.departure_airport = true)
    (htype : request.disruption_event.disruption_type = DisruptionType.delay)
    (hcat : request.disruption_event.disruption_category =
      DisruptionCategory.within_carrier_control) (x : ℚ) :
    (validate_appr_request (set_delay_duration request (some x))).2.2.compensation_amount =
      if x < 3 then 0 else if x < 6 then 400 else if x < 9 then 700 else 1000 := by
  have hgate' : is_canadian_airport
      (set_delay_duration request (some x)).flight_info.departure_airport = true := hgate
  rw [validate_gate_pos _ hgate']
  dsimp only
  rw [calc_amount]
  have hdis : dispatchResult (set_delay_duration request (some x)) =
      handle_delay (set_delay_duration request (some x)) := by
    unfold dispatchResult set_delay_duration
    dsimp only
    rw [htype]
  rw [hdis]
  have hs := handle_delay_wcc (set_delay_duration request (some x)) hcat x rfl
  rcases lt_or_le x 3 with h3 | h3
  · rw [if_pos h3]; exact (hs.1 h3).2
  · rw [if_neg (not_lt.mpr h3)]
    rcases lt_or_le x 6 with h6 | h6
    · rw [if_pos h6]; exact (hs.2.1 h3 h6).2
    · rw [if_neg (not_lt.mpr h6)]
      rcases lt_or_le x 9 with h9 | h9
      · rw [if_pos h9]; exact (hs.2.2.1 h6 h9).2
      · rw [if_neg (not_lt.mpr h9)]; exact (hs.2.2.2 h9).2

/-- The delay handler only sets a positive amount when eligible. -/
lemma handle_delay_amount_pos (request : APPRValidationRequest) :
    0 < (handle_delay request).compensation_amount →
    (handle_delay request).eligible_for_compensation = true := by
  unfold handle_delay
  dsimp only
  split_ifs <;> simp

/-- The cancellation handler only sets a positive amount when eligible. -/
lemma handle_cancellation_amount_pos (request : APPRValidationRequest) :
    0 < (handle_cancellation request).compensation_amount →
    (handle_cancellation request).eligible_for_compensation = true := by
  unfold handle_cancellation
  dsimp only
  split_ifs <;> simp

/-- The tarmac handler only sets a positive amount when eligible (its
monetary fields are either zero or copied from the delay handler). -/
lemma handle_tarmac_amount_pos (request : APPRValidationRequest) :
    0 < (handle_tarmac_delay request).compensation_amount →
    (handle_tarmac_delay request).eligible_for_compensation = true := by
  unfold handle_tarmac_delay
  dsimp only
  split_ifs <;> first
    | exact handle_delay_amount_pos request
    | simp

/-! Claim theorems. -/

/-- C1: for every delay request passing the jurisdiction gate with
category within-carrier-control and a specified duration d, the decision
is not eligible with amount 0 for d below 3, eligible with amount 400 on
[3,6), 700 on [6,9), 1000 from 9 up; consequently the amount is
monotonically non-decreasing in the duration with lower-bound-inclusive
tier boundaries at 3, 6 and 9 hours. -/
theorem delay_tier_quantization (request : APPRValidationRequest)
    (hgate : is_canadian_airport request.flight_info.departure_airport = true)
    (htype : request.disruption_event.disruption_type = DisruptionType.delay)
    (hcat : request.disruption_event.disruption_category =
      DisruptionCategory.within_carrier_control) :
    (∀ d : ℚ, request.disruption_event.delay_duration_hours = some d →
      (d < 3 → (validate_appr_request request).2.2.eligible_for_compensation = false ∧
        (validate_appr_request request).2.2.compensation_amount = 0) ∧
      (3 ≤ d → d < 6 →
        (validate_appr_request request).2.2.eligible_for_compensation = true ∧
        (validate_appr_request request).2.2.compensation_amount = 400) ∧
      (6 ≤ d → d < 9 →
        (validate_appr_request request).2.2.eligible_for_compensation = true ∧
        (validate_appr_request request).2.2.compensation_amount = 700) ∧
      (9 ≤ d →
        (validate_appr_request request).2.2.eligible_for_compensation = true ∧
        (validate_appr_request request).2.2.compensation_amount = 1000)) ∧
    (∀ d1 d2 : ℚ, d1 ≤ d2 →
      (validate_appr_request (set_delay_duration request (some d1))).2.2.compensation_amount ≤
      (validate_appr_request (set_delay_duration request (some d2))).2.2.compensation_amount) := by
  constructor
  · intro d hd
    rw [validate_gate_pos request hgate]
    dsimp only
    have hdis : dispatchResult request = handle_delay request := by
      unfold dispatchResult; rw [htype]
    have hs := handle_delay_wcc request hcat d hd
    rw [calc_eligible, calc_amount, hdis]
    exact hs
  · intro d1 d2 h12
    rw [delay_amount_closed_form request hgate htype hcat d1,
        delay_amount_closed_form request hgate htype hcat d2]
    split_ifs <;> linarith

/-- Witness for C1: the 4-hour YYZ delay request concretely yields an
eligible decision with amount 400 (and a 5-hour variant pays at least as
much as a 4-hour one). -/
theorem delay_tier_quantization_witness :
    is_canadian_airport reqDelayYYZ.flight_info.departure_airport = true ∧
    reqDelayYYZ.disruption_event.delay_duration_hours = some 4 ∧
    ((3 : ℚ) ≤ 4 ∧ (4 : ℚ) < 6 ∧
      (validate_appr_request reqDelayYYZ).2.2.eligible_for_compensation = true ∧
      (validate_appr_request reqDelayYYZ).2.2.compensation_amount = 400) ∧
    (validate_appr_request (set_delay_duration reqDelayYYZ (some 4))).2.2.compensation_amount ≤
      (validate_appr_request (set_delay_duration reqDelayYYZ (some 5))).2.2.compensation_amount := by
  have h := delay_tier_quantization reqDelayYYZ (by decide) (by decide) (by decide)
  refine ⟨by decide, rfl, ?_, h.2 4 5 (by norm_num)⟩
  have h4 := (h.1 4 rfl).2.1 (by norm_num) (by norm_num)
  exact ⟨by norm_num, by norm_num, h4.1, h4.2⟩

/-- C2: for every request whose departure airport is not in the
jurisdiction registry, `validate_appr_request` returns applicable = false,
a reason string naming the non-qualifying airport, and a decision with
eligibility false, amount 0 and all five obligation lists empty,
regardless of every other field; no handler or cross-cutting pass output
appears in the decision. -/
theorem nonjurisdiction_short_circuit (request : APPRValidationRequest)
    (h : is_canadian_airport request.flight_info.departure_airport = false) :
    validate_appr_request request =
      (false,
       "APPR does not apply - flight departs from " ++
         request.flight_info.departure_airport ++ " (non-Canadian airport)",
       { eligible_for_compensation := false, compensation_amount := 0,
         care_obligations := [], rebooking_rights := [], refund_rights := [],
         compliance_notes := [], alternative_arrangements := [] }) := by
  unfold validate_appr_request
  simp [h]

/-- Witness for C2: the LAX-departure request concretely takes the
short-circuit. -/
theorem nonjurisdiction_short_circuit_witness :
    is_canadian_airport reqDelayLAX.flight_info.departure_airport = false ∧
    validate_appr_request reqDelayLAX =
      (false,
       "APPR does not apply - flight departs from LAX (non-Canadian airport)",
       { eligible_for_compensation := false, compensation_amount := 0,
         care_obligations := [], rebooking_rights := [], refund_rights := [],
         compliance_notes := [], alternative_arrangements := [] }) :=
  ⟨by decide, (nonjurisdiction_short_circuit reqDelayLAX (by decide)).trans (by decide)⟩

/-- C4: for every cancellation request passing the gate: a specified
notice of 14 or more days is never eligible, regardless of category and
substitute delay; otherwise outside-carrier-control and safety categories
are not eligible, and within-carrier-control is eligible with amount 0
for a substitute-flight delay in [0,3) (absence treated as 0), 400 on
[3,6), 700 on [6,9) and 1000 from 9 up. -/
theorem cancellation_rules (request : APPRValidationRequest)
    (hgate : is_canadian_airport request.flight_info.departure_airport = true)
    (htype : request.disruption_event.disruption_type = DisruptionType.cancellation) :
    (∀ n : Int, request.disruption_event.cancellation_notice_days = some n → 14 ≤ n →
      (validate_appr_request request).2.2.eligible_for_compensation = false ∧
      (validate_appr_request request).2.2.compensation_amount = 0) ∧
    ((∀ n : Int, request.disruption_event.cancellation_notice_days = some n → n < 14) →
      (request.disruption_event.disruption_category =
          DisruptionCategory.outside_carrier_control →
        (validate_appr_request request).2.2.eligible_for_compensation = false ∧
        (validate_appr_request request).2.2.compensation_amount = 0) ∧
      (request.disruption_event.disruption_category =
          DisruptionCategory.within_carrier_control_safety →
        (validate_appr_request request).2.2.eligible_for_compensation = false ∧
        (validate_appr_request request).2.2.compensation_amount = 0) ∧
      (request.disruption_event.disruption_category =
          DisruptionCategory.within_carrier_control →
        (validate_appr_request request).2.2.eligible_for_compensation = true ∧
        (request.disruption_event.delay_duration_hours = none →
          (validate_appr_request request).2.2.compensation_amount = 0) ∧
        (∀ v : ℚ, request.disruption_event.delay_duration_hours = some v →
          (0 ≤ v → v < 3 →
            (validate_appr_request request).2.2.compensation_amount = 0) ∧
          (3 ≤ v → v < 6 →
            (validate_appr_request request).2.2.compensation_amount = 400) ∧
          (6 ≤ v → v < 9 →
            (validate_appr_request request).2.2.compensation_amount = 700) ∧
          (9 ≤ v →
            (validate_appr_request request).2.2.compensation_amount = 1000)))) := by
  rw [validate_gate_pos request hgate]
  dsimp only
  have hdis : dispatchResult request = handle_cancellation request := by
    unfold dispatchResult; rw [htype]
  rw [calc_eligible, calc_amount, hdis]
  constructor
  · intro n hn h14
    unfold handle_cancellation
    dsimp only
    rw [hn]
    have h0 : n ≠ 0 := by omega
    simp [pyTruthyInt, h0, h14]
  · intro hno
    have hguard : ¬ (pyTruthyInt request.disruption_event.cancellation_notice_days = true ∧
        14 ≤ request.disruption_event.cancellation_notice_days.getD 0) := by
      rcases hcn : request.disruption_event.cancellation_notice_days with _ | n
      · simp [pyTruthyInt]
      · have := hno n hcn
        simp [pyTruthyInt]
        omega
    refine ⟨?_, ?_, ?_⟩
    · intro hcat
      unfold handle_cancellation
      dsimp only
      rw [if_neg (by simpa using hguard), hcat]
      simp
    · intro hcat
      unfold handle_cancellation
      dsimp only
      rw [if_neg (by simpa using hguard), hcat]
      simp
    · intro hcat
      unfold handle_cancellation
      dsimp only
      rw [if_neg (by simpa using hguard), hcat]
      simp only [reduceCtorEq, if_false, if_true, reduceIte]
      refine ⟨?_, ?_, ?_⟩
      · split_ifs <;> rfl
      · intro hnone
        rw [hnone]
        norm_num [pyTruthyQ]
      · intro v hv
        rw [hv]
        refine ⟨?_, ?_, ?_, ?_⟩
        · intro hv0 hv3
          by_cases h0 : v = 0
          · subst h0; norm_num [pyTruthyQ]
          · simp [pyTruthyQ, h0, hv3]
        · intro h3 h6
          have h0 : v ≠ 0 := by intro h; rw [h] at h3; norm_num at h3
          have hn3 : ¬ v < 3 := not_lt.mpr h3
          simp [pyTruthyQ, h0, hn3, h3, h6, LARGE_CARRIER_COMPENSATION]
        · intro h6 h9
          have h0 : v ≠ 0 := by intro h; rw [h] at h6; norm_num at h6
          have hn3 : ¬ v < 3 := by intro h; linarith
          have hn6 : ¬ v < 6 := not_lt.mpr h6
          simp [pyTruthyQ, h0, hn3, hn6, h6, h9, LARGE_CARRIER_COMPENSATION]
        · intro h9
          have h0 : v ≠ 0 := by intro h; rw [h] at h9; norm_num at h9
          have hn3 : ¬ v < 3 := by intro h; linarith
          have hn6 : ¬ v < 6 := by intro h; linarith
          have hn9 : ¬ v < 9 := not_lt.mpr h9
          simp [pyTruthyQ, h0, hn3, hn6, hn9, LARGE_CARRIER_COMPENSATION]

/-- Witness for C4: cancellation with 2 days notice and a 6-hour
substitute-flight delay is eligible and pays 700. -/
theorem cancellation_rules_witness :
    is_canadian_airport reqCancel.flight_info.departure_airport = true ∧
    reqCancel.disruption_event.disruption_type = DisruptionType.cancellation ∧
    (∀ n : Int, reqCancel.disruption_event.cancellation_notice_days = some n → n < 14) ∧
    ((validate_appr_request reqCancel).2.2.eligible_for_compensation = true ∧
     (validate_appr_request reqCancel).2.2.compensation_amount = 700) := by
  have hno : ∀ n : Int, reqCancel.disruption_event.cancellation_notice_days = some n →
      n < 14 := by
    intro n hn
    simp only [reqCancel] at hn
    simp at hn
    omega
  have h := (cancellation_rules reqCancel (by decide) (by decide)).2 hno
  have hwcc := h.2.2 rfl
  refine ⟨by decide, by decide, hno, hwcc.1, ?_⟩
  exact ((hwcc.2.2 6 rfl).2.2.1 (by norm_num) (by norm_num))

/-- C6: every denied-boarding request that passes the jurisdiction gate is
eligible regardless of disruption category; the amount is 900 when the
arrival airport is also in the jurisdiction (domestic) and 2400 otherwise
(international), with no tiering. -/
theorem denied_boarding_flat_rates (request : APPRValidationRequest)
    (hgate : is_canadian_airport request.flight_info.departure_airport = true)
    (htype : request.disruption_event.disruption_type = DisruptionType.denied_boarding) :
    (validate_appr_request request).2.2.eligible_for_compensation = true ∧
    (is_canadian_airport request.flight_info.arrival_airport = true →
      (validate_appr_request request).2.2.compensation_amount = 900) ∧
    (is_canadian_airport request.flight_info.arrival_airport = false →
      (validate_appr_request request).2.2.compensation_amount = 2400) := by
  rw [validate_gate_pos request hgate]
  dsimp only
  have hdis : dispatchResult request = handle_denied_boarding request := by
    unfold dispatchResult; rw [htype]
  refine ⟨?_, ?_, ?_⟩
  · rw [calc_eligible, hdis]
    unfold handle_denied_boarding
    dsimp only
    split_ifs <;> rfl
  · intro harr
    rw [calc_amount, hdis]
    unfold handle_denied_boarding
    dsimp only
    simp [hgate, harr, LARGE_CARRIER_COMPENSATION]
  · intro harr
    rw [calc_amount, hdis]
    unfold handle_denied_boarding
    dsimp only
    simp [hgate, harr, LARGE_CARRIER_COMPENSATION]

/-- Witness for C6: domestic denied boarding YWG to YQR pays 900. -/
theorem denied_boarding_flat_rates_witness :
    is_canadian_airport reqDenied.flight_info.departure_airport = true ∧
    reqDenied.disruption_event.disruption_type = DisruptionType.denied_boarding ∧
    ((validate_appr_request reqDenied).2.2.eligible_for_compensation = true ∧
     (is_canadian_airport reqDenied.flight_info.arrival_airport = true →
       (validate_appr_request reqDenied).2.2.compensation_amount = 900) ∧
     (is_canadian_airport reqDenied.flight_info.arrival_airport = false →
       (validate_appr_request reqDenied).2.2.compensation_amount = 2400)) :=
  ⟨by decide, by decide, denied_boarding_flat_rates reqDenied (by decide) (by decide)⟩

/-- C7: every downgrade request that passes the gate (with nonnegative
ticket price) is eligible for every category, and the amount is
ticket price times 0.75 for a case-insensitively business or first
booking class, ticket price times 0.50 otherwise. -/
theorem downgrade_refund_fraction (request : APPRValidationRequest)
    (hgate : is_canadian_airport request.flight_info.departure_airport = true)
    (htype : request.disruption_event.disruption_type = DisruptionType.downgrade)
    (_hprice : 0 ≤ request.passenger_info.ticket_price) :
    (validate_appr_request request).2.2.eligible_for_compensation = true ∧
    (pyLower request.passenger_info.booking_class = "business" ∨
        pyLower request.passenger_info.booking_class = "first" →
      (validate_appr_request request).2.2.compensation_amount =
        request.passenger_info.ticket_price * (75 / 100)) ∧
    (pyLower request.passenger_info.booking_class ≠ "business" →
      pyLower request.passenger_info.booking_class ≠ "first" →
      (validate_appr_request request).2.2.compensation_amount =
        request.passenger_info.ticket_price * (50 / 100)) := by
  rw [validate_gate_pos request hgate]
  dsimp only
  have hdis : dispatchResult request = handle_downgrade request := by
    unfold dispatchResult; rw [htype]
  refine ⟨?_, ?_, ?_⟩
  · rw [calc_eligible, hdis]; rfl
  · intro hbc
    rw [calc_amount, hdis]
    unfold handle_downgrade
    dsimp only
    simp only [List.mem_cons, List.mem_singleton, List.not_mem_nil, or_false]
    rw [if_pos hbc]
  · intro hb hf
    rw [calc_amount, hdis]
    unfold handle_downgrade
    dsimp only
    simp only [List.mem_cons, List.mem_singleton, List.not_mem_nil, or_false]
    rw [if_neg (by simp [hb, hf])]

/-- Witness for C7: a 1000-dollar Business ticket downgrade pays 750. -/
theorem downgrade_refund_fraction_witness :
    is_canadian_airport reqDowngrade.flight_info.departure_airport = true ∧
    reqDowngrade.disruption_event.disruption_type = DisruptionType.downgrade ∧
    0 ≤ reqDowngrade.passenger_info.ticket_price ∧
    ((validate_appr_request reqDowngrade).2.2.eligible_for_compensation = true ∧
     (pyLower reqDowngrade.passenger_info.booking_class = "business" ∨
         pyLower reqDowngrade.passenger_info.booking_class = "first" →
       (validate_appr_request reqDowngrade).2.2.compensation_amount =
         reqDowngrade.passenger_info.ticket_price * (75 / 100)) ∧
     (pyLower reqDowngrade.passenger_info.booking_class ≠ "business" →
       pyLower reqDowngrade.passenger_info.booking_class ≠ "first" →
       (validate_appr_request reqDowngrade).2.2.compensation_amount =
         reqDowngrade.passenger_info.ticket_price * (50 / 100))) :=
  ⟨by decide, by decide, by norm_num [reqDowngrade],
    downgrade_refund_fraction reqDowngrade (by decide) (by decide)
      (by norm_num [reqDowngrade])⟩

/-- C8: for every request with nonnegative ticket price, a positive
compensation amount implies the eligibility flag is set; the converse is
not required, as the within-carrier-control cancellation with a 1-hour
substitute delay shows (eligible with amount 0). -/
theorem amount_positive_implies_eligible (request : APPRValidationRequest)
    (_hprice : 0 ≤ request.passenger_info.ticket_price) :
    (0 < (validate_appr_request request).2.2.compensation_amount →
      (validate_appr_request request).2.2.eligible_for_compensation = true) ∧
    ((validate_appr_request reqCancelZero).2.2.eligible_for_compensation = true ∧
     (validate_appr_request reqCancelZero).2.2.compensation_amount = 0) := by
  refine ⟨?_, by decide, by decide⟩
  by_cases hg : is_canadian_airport request.flight_info.departure_airport = true
  · rw [validate_gate_pos request hg]
    dsimp only
    rw [calc_eligible, calc_amount]
    unfold dispatchResult
    cases request.disruption_event.disruption_type
    · exact handle_delay_amount_pos request
    · exact handle_cancellation_amount_pos request
    · intro _
      unfold handle_denied_boarding
      dsimp only
      split_ifs <;> rfl
    · exact handle_tarmac_amount_pos request
    · intro _
      unfold handle_downgrade
      rfl
    · intro h; norm_num [handle_baggage_issue] at h
  · have hg' : is_canadian_airport request.flight_info.departure_airport = false := by
      simpa using hg
    unfold validate_appr_request
    rw [if_pos (by simp [hg'])]
    simp

/-- Witness for C8: the invariant instantiated at the 4-hour delay
request (whose ticket price 350 is nonnegative). -/
theorem amount_positive_implies_eligible_witness :
    0 ≤ reqDelayYYZ.passenger_info.ticket_price ∧
    ((0 < (validate_appr_request reqDelayYYZ).2.2.compensation_amount →
      (validate_appr_request reqDelayYYZ).2.2.eligible_for_compensation = true) ∧
    ((validate_appr_request reqCancelZero).2.2.eligible_for_compensation = true ∧
     (validate_appr_request reqCancelZero).2.2.compensation_amount = 0)) :=
  ⟨by norm_num [reqDelayYYZ, regularPassenger],
   amount_positive_implies_eligible reqDelayYYZ
     (by norm_num [reqDelayYYZ, regularPassenger])⟩

/-- C10: for every request that passes the jurisdiction gate, the three
cross-cutting passes leave the eligibility flag and the amount exactly as
the dispatched handler set them, and only append to the five list
fields. -/
theorem cross_cutting_passes_frame (request : APPRValidationRequest)
    (hgate : is_canadian_airport request.flight_info.departure_airport = true) :
    (validate_appr_request request).2.2.eligible_for_compensation =
      (dispatchResult request).eligible_for_compensation ∧
    (validate_appr_request request).2.2.compensation_amount =
      (dispatchResult request).compensation_amount ∧
    (dispatchResult request).care_obligations <+:
      (validate_appr_request request).2.2.care_obligations ∧
    (dispatchResult request).rebooking_rights <+:
      (validate_appr_request request).2.2.rebooking_rights ∧
    (dispatchResult request).refund_rights <+:
      (validate_appr_request request).2.2.refund_rights ∧
    (dispatchResult request).compliance_notes <+:
      (validate_appr_request request).2.2.compliance_notes ∧
    (dispatchResult request).alternative_arrangements <+:
      (validate_appr_request request).2.2.alternative_arrangements := by
  rw [validate_gate_pos request hgate]
  exact calc_frame request

/-- Witness for C10: the frame property for the 4-hour delay request. -/
theorem cross_cutting_passes_frame_witness :
    is_canadian_airport reqDelayYYZ.flight_info.departure_airport = true ∧
    ((validate_appr_request reqDelayYYZ).2.2.eligible_for_compensation =
      (dispatchResult reqDelayYYZ).eligible_for_compensation ∧
    (validate_appr_request reqDelayYYZ).2.2.compensation_amount =
      (dispatchResult reqDelayYYZ).compensation_amount ∧
    (dispatchResult reqDelayYYZ).care_obligations <+:
      (validate_appr_request reqDelayYYZ).2.2.care_obligations ∧
    (dispatchResult reqDelayYYZ).rebooking_rights <+:
      (validate_appr_request reqDelayYYZ).2.2.rebooking_rights ∧
    (dispatchResult reqDelayYYZ).refund_rights <+:
      (validate_appr_request reqDelayYYZ).2.2.refund_rights ∧
    (dispatchResult reqDelayYYZ).compliance_notes <+:
      (validate_appr_request reqDelayYYZ).2.2.compliance_notes ∧
    (dispatchResult reqDelayYYZ).alternative_arrangements <+:
      (validate_appr_request reqDelayYYZ).2.2.alternative_arrangements) :=
  ⟨by decide, cross_cutting_passes_frame reqDelayYYZ (by decide)⟩

/-- C3 counterexample: the claim keys the care thresholds on
max(delay, tarmac, 0), but the code keys them on the Python or-chain
`delay_duration_hours or tarmac_delay_hours or 0`.  For a request with a
2-hour general delay and a 9-hour tarmac delay the max is 9, so the claim
requires the food (and accommodation) entries, yet the code keys on 2 and
only emits the communication entry. -/
theorem care_obligations_max_cex :
    reqCareMix.disruption_event.delay_duration_hours = some 2 ∧
    reqCareMix.disruption_event.tarmac_delay_hours = some 9 ∧
    is_canadian_airport reqCareMix.flight_info.departure_airport = true ∧
    (3 : ℚ) ≤ max (2 : ℚ) (max (9 : ℚ) 0) ∧
    "Communication: Provide updates on delay status and passenger rights" ∈
      (validate_appr_request reqCareMix).2.2.care_obligations ∧
    "Food and drink: Provide meals and refreshments" ∉
      (validate_appr_request reqCareMix).2.2.care_obligations := by decide

/-- C3 (amended): for every request passing the gate, with the care key
k the FIRST non-missing non-zero of (delay hours, tarmac hours) else 0
(Python `or`-chaining, not the maximum), the care list contains the
communication entry iff k is at least 2, the food entry iff k is at
least 3, and the accommodation and transportation entries iff k is at
least 8; the thresholds are independent and cumulative. -/
theorem care_obligations_thresholds (request : APPRValidationRequest)
    (hgate : is_canadian_airport request.flight_info.departure_airport = true) :
    ("Communication: Provide updates on delay status and passenger rights" ∈
        (validate_appr_request request).2.2.care_obligations ↔
      2 ≤ pyOrQ request.disruption_event.delay_duration_hours
            request.disruption_event.tarmac_delay_hours) ∧
    ("Food and drink: Provide meals and refreshments" ∈
        (validate_appr_request request).2.2.care_obligations ↔
      3 ≤ pyOrQ request.disruption_event.delay_duration_hours
            request.disruption_event.tarmac_delay_hours) ∧
    ("Accommodation: Provide overnight accommodation if required" ∈
        (validate_appr_request request).2.2.care_obligations ↔
      8 ≤ pyOrQ request.disruption_event.delay_duration_hours
            request.disruption_event.tarmac_delay_hours) ∧
    ("Transportation: Provide transport between airport and accommodation" ∈
        (validate_appr_request request).2.2.care_obligations ↔
      8 ≤ pyOrQ request.disruption_event.delay_duration_hours
            request.disruption_event.tarmac_delay_hours) := by
  rw [validate_gate_pos request hgate]
  dsimp only
  refine ⟨?_, ?_, ?_, ?_⟩ <;>
    · rw [mem_care_calc request _ (by decide) (by decide)]
      unfold add_care_obligations
      dsimp only
      rw [dispatch_care_nil]
      split_ifs <;> simp_all [dispatch_care_nil]

/-- Witness for C3 (amended): the 4-hour delay request has key 4, so its
care list has the communication and food entries but not accommodation. -/
theorem care_obligations_thresholds_witness :
    is_canadian_airport reqDelayYYZ.flight_info.departure_airport = true ∧
    (("Communication: Provide updates on delay status and passenger rights" ∈
        (validate_appr_request reqDelayYYZ).2.2.care_obligations ↔
      2 ≤ pyOrQ reqDelayYYZ.disruption_event.delay_duration_hours
            reqDelayYYZ.disruption_event.tarmac_delay_hours) ∧
    ("Food and drink: Provide meals and refreshments" ∈
        (validate_appr_request reqDelayYYZ).2.2.care_obligations ↔
      3 ≤ pyOrQ reqDelayYYZ.disruption_event.delay_duration_hours
            reqDelayYYZ.disruption_event.tarmac_delay_hours) ∧
    ("Accommodation: Provide overnight accommodation if required" ∈
        (validate_appr_request reqDelayYYZ).2.2.care_obligations ↔
      8 ≤ pyOrQ reqDelayYYZ.disruption_event.delay_duration_hours
            reqDelayYYZ.disruption_event.tarmac_delay_hours) ∧
    ("Transportation: Provide transport between airport and accommodation" ∈
        (validate_appr_request reqDelayYYZ).2.2.care_obligations ↔
      8 ≤ pyOrQ reqDelayYYZ.disruption_event.delay_duration_hours
            reqDelayYYZ.disruption_event.tarmac_delay_hours)) :=
  ⟨by decide, care_obligations_thresholds reqDelayYYZ (by decide)⟩

/-- C5 counterexample: the claim says the delay handler's tiering is
re-invoked and merged WHENEVER a general delay duration is present, but
the code returns early (skipping the merge) when the tarmac duration is
missing.  For a tarmac-delay request with no tarmac duration and a 5-hour
within-carrier-control general delay, the delay handler alone would give
an eligible 400 decision, yet the engine returns not-eligible, 0. -/
theorem tarmac_merge_cex :
    reqTarmacNone.disruption_event.disruption_type = DisruptionType.tarmac_delay ∧
    is_canadian_airport reqTarmacNone.flight_info.departure_airport = true ∧
    reqTarmacNone.disruption_event.tarmac_delay_hours = none ∧
    reqTarmacNone.disruption_event.delay_duration_hours = some 5 ∧
    reqTarmacNone.disruption_event.disruption_category =
      DisruptionCategory.within_carrier_control ∧
    (handle_delay reqTarmacNone).eligible_for_compensation = true ∧
    (handle_delay reqTarmacNone).compensation_amount = 400 ∧
    (validate_appr_request reqTarmacNone).2.2.eligible_for_compensation = false ∧
    (validate_appr_request reqTarmacNone).2.2.compensation_amount = 0 := by decide

/-- C5 (amended): for every tarmac-delay request passing the gate: a
specified tarmac duration of at least 4 hours appends the mandatory
disembarkation entry to alternative arrangements, independent of
compensation; the delay handler's eligibility and amount are merged into
the result when the tarmac duration is specified and nonzero AND the
general delay duration is specified and nonzero; when the tarmac
duration is missing or zero the handler returns early WITHOUT consulting
the delay duration, so the decision is not eligible with amount 0 even
for a specified, nonzero general delay; and whenever the general delay
duration is missing or zero the tarmac disruption alone is never
monetarily eligible. -/
theorem tarmac_delay_rules (request : APPRValidationRequest)
    (hgate : is_canadian_airport request.flight_info.departure_airport = true)
    (htype : request.disruption_event.disruption_type = DisruptionType.tarmac_delay) :
    (∀ t : ℚ, request.disruption_event.tarmac_delay_hours = some t → 4 ≤ t →
      "Passenger disembarkation required after 4 hours on tarmac" ∈
        (validate_appr_request request).2.2.alternative_arrangements) ∧
    (pyTruthyQ request.disruption_event.tarmac_delay_hours = true →
      pyTruthyQ request.disruption_event.delay_duration_hours = true →
      (validate_appr_request request).2.2.eligible_for_compensation =
        (handle_delay request).eligible_for_compensation ∧
      (validate_appr_request request).2.2.compensation_amount =
        (handle_delay request).compensation_amount) ∧
    (pyTruthyQ request.disruption_event.tarmac_delay_hours = false →
      (validate_appr_request request).2.2.eligible_for_compensation = false ∧
      (validate_appr_request request).2.2.compensation_amount = 0) ∧
    (pyTruthyQ request.disruption_event.delay_duration_hours = false →
      (validate_appr_request request).2.2.eligible_for_compensation = false ∧
      (validate_appr_request request).2.2.compensation_amount = 0) := by
  rw [validate_gate_pos request hgate]
  dsimp only
  have hdis : dispatchResult request = handle_tarmac_delay request := by
    unfold dispatchResult; rw [htype]
  refine ⟨?_, ?_, ?_, ?_⟩
  · intro t ht h4
    rw [mem_alt_calc request _ (by decide), hdis]
    unfold handle_tarmac_delay
    dsimp only
    rw [ht]
    have ht0 : t ≠ 0 := by intro h; rw [h] at h4; norm_num at h4
    simp only [pyTruthyQ, Option.getD_some]
    rw [if_neg (by simp [ht0]), if_pos h4]
    split_ifs <;> simp
  · intro htt htd
    rw [calc_eligible, calc_amount, hdis]
    unfold handle_tarmac_delay
    dsimp only
    rw [if_neg (by simp [htt])]
    split_ifs <;> exact ⟨rfl, rfl⟩
  · intro htf
    rw [calc_eligible, calc_amount, hdis]
    unfold handle_tarmac_delay
    dsimp only
    rw [if_pos (by simp [htf])]
    exact ⟨rfl, rfl⟩
  · intro htd
    rw [calc_eligible, calc_amount, hdis]
    dsimp only [handle_tarmac_delay]
    split_ifs <;> first
      | exact ⟨rfl, rfl⟩
      | simp_all

/-- Witness for C5 (amended): the 5-hour tarmac, 7-hour delay request
gets the disembarkation entry and the delay handler's merged monetary
outcome. -/
theorem tarmac_delay_rules_witness :
    is_canadian_airport reqTarmac.flight_info.departure_airport = true ∧
    reqTarmac.disruption_event.disruption_type = DisruptionType.tarmac_delay ∧
    reqTarmac.disruption_event.tarmac_delay_hours = some 5 ∧ (4 : ℚ) ≤ 5 ∧
    ("Passenger disembarkation required after 4 hours on tarmac" ∈
      (validate_appr_request reqTarmac).2.2.alternative_arrangements) ∧
    ((validate_appr_request reqTarmac).2.2.eligible_for_compensation =
      (handle_delay reqTarmac).eligible_for_compensation ∧
     (validate_appr_request reqTarmac).2.2.compensation_amount =
      (handle_delay reqTarmac).compensation_amount) := by
  have h := tarmac_delay_rules reqTarmac (by decide) (by decide)
  exact ⟨by decide, by decide, rfl, by norm_num,
    h.1 5 rfl (by norm_num), h.2.1 (by decide) (by decide)⟩

/-- C9 counterexample: the claim says the "duration not specified" note
is recorded exactly when the duration is absent, and that a present
duration of exactly 0 (which is below 3) records the under-threshold
note.  But the code's `if not disruption.delay_duration_hours:` treats a
present 0 as missing: the decision's notes are exactly the
"not specified" note, and no under-threshold note appears. -/
theorem delay_zero_duration_cex :
    reqDelayZero.disruption_event.disruption_type = DisruptionType.delay ∧
    is_canadian_airport reqDelayZero.flight_info.departure_airport = true ∧
    reqDelayZero.disruption_event.delay_duration_hours = some 0 ∧
    (validate_appr_request reqDelayZero).2.2.compliance_notes =
      ["Delay duration not specified"] := by decide

/-- C9 (amended): for every delay request passing the gate: when the
duration is present, NONZERO and strictly below 3 hours the decision is
not eligible and the notes record the under-3-hour-threshold reason; the
"duration not specified" note is recorded exactly when the duration is
absent OR present with value exactly 0 (the code treats a present zero
like an absent value). -/
theorem delay_duration_notes (request : APPRValidationRequest)
    (hgate : is_canadian_airport request.flight_info.departure_airport = true)
    (htype : request.disruption_event.disruption_type = DisruptionType.delay) :
    (∀ d : ℚ, request.disruption_event.delay_duration_hours = some d → d ≠ 0 → d < 3 →
      (validate_appr_request request).2.2.eligible_for_compensation = false ∧
      ("Delay of " ++ toString d ++
          " hours is under 3-hour threshold - no compensation required") ∈
        (validate_appr_request request).2.2.compliance_notes) ∧
    ("Delay duration not specified" ∈
        (validate_appr_request request).2.2.compliance_notes ↔
      (request.disruption_event.delay_duration_hours = none ∨
       request.disruption_event.delay_duration_hours = some 0)) := by
  rw [validate_gate_pos request hgate]
  dsimp only
  have hdis : dispatchResult request = handle_delay request := by
    unfold dispatchResult; rw [htype]
  constructor
  · intro d hd hd0 hd3
    constructor
    · rw [calc_eligible, hdis]
      unfold handle_delay
      dsimp only
      rw [hd]
      simp [pyTruthyQ, hd0, hd3]
    · rw [mem_notes_calc request _
        (append_ne_of_length _ _ _ (by decide) (toString d))
        (append_ne_of_length _ _ _ (by decide) (toString d)), hdis]
      unfold handle_delay
      dsimp only
      rw [hd]
      simp [pyTruthyQ, hd0, hd3]
  · rw [mem_notes_calc request _ (by decide) (by decide), hdis]
    unfold handle_delay
    dsimp only
    rcases hdur : request.disruption_event.delay_duration_hours with _ | d
    · simp [pyTruthyQ]
    · by_cases hd0 : d = 0
      · subst hd0; simp [pyTruthyQ]
      · rw [if_neg (by simp [pyTruthyQ, hd0])]
        simp only [Option.getD_some, Option.some.injEq, hd0, or_false, reduceCtorEq,
          false_or]
        constructor
        · intro hmem
          exfalso
          rcases lt_or_le d 3 with h3 | h3
          · rw [if_pos h3] at hmem
            simp only [List.mem_singleton] at hmem
            exact append_ne_of_length _ _ _ (by decide) (toString d) hmem.symm
          · rw [if_neg (not_lt.mpr h3)] at hmem
            split_ifs at hmem <;> simp_all <;>
              exact append_ne_of_length _ _ _ (by decide) (toString d) hmem.symm
        · intro h
          exact h.elim

/-- Witness for C9 (amended): the 1-hour delay request is not eligible,
its notes carry the under-threshold reason, and the not-specified note is
present exactly for the absent-or-zero duration (here: absent from the
notes, since the duration is a present 1). -/
theorem delay_duration_notes_witness :
    is_canadian_airport reqDelayShort.flight_info.departure_airport = true ∧
    reqDelayShort.disruption_event.delay_duration_hours = some 1 ∧
    ((validate_appr_request reqDelayShort).2.2.eligible_for_compensation = false ∧
     ("Delay of " ++ toString (1 : ℚ) ++
         " hours is under 3-hour threshold - no compensation required") ∈
       (validate_appr_request reqDelayShort).2.2.compliance_notes) ∧
    ("Delay duration not specified" ∈
        (validate_appr_request reqDelayShort).2.2.compliance_notes ↔
      (reqDelayShort.disruption_event.delay_duration_hours = none ∨
       reqDelayShort.disruption_event.delay_duration_hours = some 0)) := by
  have h := delay_duration_notes reqDelayShort (by decide) (by decide)
  exact ⟨by decide, rfl, h.1 1 rfl (by norm_num) (by norm_num), h.2⟩

end APPR
